import Mathlib

/-!
# Verification of the aggregation engine of `src/analytics_lambda.py`

A shallow embedding of the analytics code of the BLS/population data
pipeline.  Machine floats of the original (pandas means, standard
deviations, `round`) are modelled over `ℚ`, with the exact real square
root appearing only in theorem statements; a pandas `NaN` arising from a
zero denominator is modelled as `Option.none`.  S3 and JSON failures are
modelled by explicit `Except`/`Option` outcomes, and `numpy.random` by an
oracle `rng : Nat → ℚ` supplying the successive draws.
-/

/-- One row of the population dataset (`year`, `Population` columns of the
dataframe built in `load_population_data`). -/
structure PopulationObservation where
  year : Int
  population : Int
  deriving DecidableEq

/-- One row of the BLS labor-statistics dataset (`series_id`, `year`,
`period`, `value` columns of the dataframe built in `load_bls_data`). -/
structure BLSObservation where
  series_id : String
  year : Int
  period : String
  value : ℚ
  deriving DecidableEq

/-- The record returned by `calculate_population_statistics` (lines
259-264).  `std_deviation = none` models the float `NaN` that pandas
`std` (ddof = 1) yields on fewer than two points. -/
structure PopulationSummary where
  mean_population : Int
  std_deviation : Option Int
  years_included : List Int
  data_points : Nat
  deriving DecidableEq

/-- One record of the `calculate_best_years` result list (lines 293-297). -/
structure BestYearEntry where
  series_id : String
  best_year : Int
  max_value : ℚ
  deriving DecidableEq

/-- One joined row of the combined report (lines 338-344). -/
structure CombinedRow where
  series_id : String
  year : Int
  period : String
  value : ℚ
  population : Option Int
  deriving DecidableEq

/-- The record returned by `generate_combined_report` (lines 346-351). -/
structure CombinedReport where
  target_series : String
  target_period : String
  records : List CombinedRow
  total_records : Nat
  deriving DecidableEq

/-- The `analytics_summary` object of `run_analytics`s success result
(lines 119-123). -/
structure AnalyticsSummary where
  population_stats_calculated : Bool
  best_years_analyzed : Nat
  combined_report_generated : Bool
  deriving DecidableEq

/-- The result record of one `run_analytics` call: the success branch
(lines 116-124) or the exception branch (lines 126-132). -/
inductive RunResult where
  | success (timestamp : String) (summary : AnalyticsSummary)
  | failure (error : String) (timestamp : String)
  deriving DecidableEq

/-- Python `round(x, 4)` (lines 296 and 342): rounding to 4 decimal
places.  Mathlib `round` rounds half up where CPython rounds half to
even; the claims fix no tie rule at the fifth decimal. -/
def round4 (q : ℚ) : ℚ := (round (q * 10000) : ℚ) / 10000

/-- The nearest integer to the square root of `q`: the embedding of
`round(std, 0)` applied to the float square root pandas computes.  For
`0 ≤ q` it returns the integer `k` with `(2k-1)^2 ≤ 4q < (2k+1)^2`
(half-integer square roots round up; a float tie there is immaterial to
the claims, which fix no tie rule). -/
def roundSqrtQ (q : ℚ) : Int :=
  ((Nat.sqrt (⌊4 * q⌋).toNat + 1) / 2 : ℕ)

/-- The year filter of line 250:
`(pop_df['year'] >= lo) & (pop_df['year'] <= hi)`. -/
def inYearRange (lo hi y : Int) : Bool :=
  decide (lo ≤ y) && decide (y ≤ hi)

/-- `calculate_population_statistics` (lines 242-272) with the year
bounds (2013 and 2018 at lines 250) as parameters: filter to the year
range, return `None` on an empty filtered frame (lines 252-254), else
the rounded mean, the rounded sample standard deviation (pandas `std`,
ddof = 1, `NaN` hence `none` on a single point), the sorted year list
(line 262, `sorted(...tolist())`, no deduplication) and the point
count. -/
def calculate_population_statistics (lo hi : Int) (pop : List PopulationObservation) :
    Option PopulationSummary :=
  let filtered := pop.filter (fun o => inYearRange lo hi o.year)
  if filtered.length = 0 then none
  else
    let n : ℚ := filtered.length
    let vals : List ℚ := filtered.map (fun o => (o.population : ℚ))
    let mean_pop : ℚ := vals.sum / n
    let std_pop : Option ℚ :=
      if 2 ≤ filtered.length then
        some ((vals.map (fun v => (v - mean_pop) ^ 2)).sum / (n - 1))
      else none
    some
      { mean_population := round mean_pop
        std_deviation := std_pop.map roundSqrtQ
        years_included := List.insertionSort (· ≤ ·) (filtered.map (·.year))
        data_points := filtered.length }

/-- The distinct `series_id` keys, in the ascending order pandas
`groupby('series_id')` lists its groups. -/
def seriesIds (bls : List BLSObservation) : List String :=
  List.insertionSort (· ≤ ·) (bls.map (·.series_id)).dedup

/-- The distinct years of one series, ascending: the row order of
`groupby(['series_id', 'year']).sum().reset_index()` within one
series. -/
def yearsOf (bls : List BLSObservation) (s : String) : List Int :=
  List.insertionSort (· ≤ ·) ((bls.filter (fun o => o.series_id == s)).map (·.year)).dedup

/-- The yearly total of line 285: the sum of `value` over every
observation of series `s` in year `y`. -/
def seriesYearSum (bls : List BLSObservation) (s : String) (y : Int) : ℚ :=
  ((bls.filter (fun o => o.series_id == s && o.year == y)).map (·.value)).sum

/-- `idxmax` over the year rows of one series (line 289): the first row
attaining the maximal total, so ties keep the earlier (smaller) year.
Returns `(year, total)`. -/
def bestOfYears (f : Int → ℚ) : List Int → Option (Int × ℚ)
  | [] => none
  | y :: ys => some (ys.foldl (fun b y2 => if b.2 < f y2 then (y2, f y2) else b) (y, f y))

/-- `calculate_best_years` (lines 274-305): empty frame gives `[]`
(lines 281-282); otherwise group by series and year, sum values, and
take per series the `idxmax` year, with the total rounded to 4
decimals. -/
def calculate_best_years (bls : List BLSObservation) : List BestYearEntry :=
  if bls.isEmpty then []
  else
    (seriesIds bls).filterMap fun s =>
      (bestOfYears (seriesYearSum bls s) (yearsOf bls s)).map fun p =>
        { series_id := s, best_year := p.1, max_value := round4 p.2 }

/-- `target_series` of line 315. -/
def targetSeries : String := "PRS30006032"

/-- `target_period` of line 316. -/
def targetPeriod : String := "Q01"

/-- The filter of lines 318-321: `series_id` and `period` both match the
fixed selector. -/
def matchesTarget (o : BLSObservation) : Bool :=
  o.series_id == targetSeries && o.period == targetPeriod

/-- `pd.merge(..., on='year', how='left')` of lines 328-333: each
filtered BLS row joined to every population row of the same year, or to
a null population when none exists. -/
def mergeRows (bf : List BLSObservation) (pop : List PopulationObservation) :
    List (BLSObservation × Option Int) :=
  bf.flatMap fun b =>
    let ms := pop.filter (fun p => p.year == b.year)
    if ms.isEmpty then [(b, none)] else ms.map fun p => (b, some p.population)

instance : IsTotal (BLSObservation × Option Int) (fun a b => a.1.year ≤ b.1.year) :=
  ⟨fun a b => le_total a.1.year b.1.year⟩

instance : IsTrans (BLSObservation × Option Int) (fun a b => a.1.year ≤ b.1.year) :=
  ⟨fun _ _ _ hab hbc => le_trans hab hbc⟩

/-- `generate_combined_report` (lines 307-359): filter to the fixed
`(series_id, period)` selector, `None` when nothing matches (lines
323-325), else left-join to population on year, sort ascending by year
(line 333) and emit the rounded rows.  `sort_values` is modelled by a
stable sort; no claim depends on the order among equal years. -/
def generate_combined_report (bls : List BLSObservation) (pop : List PopulationObservation) :
    Option CombinedReport :=
  let bf := bls.filter matchesTarget
  if bf.isEmpty then none
  else
    let merged := List.insertionSort (fun a b => a.1.year ≤ b.1.year) (mergeRows bf pop)
    let records := merged.map fun r =>
      { series_id := r.1.series_id, year := r.1.year, period := r.1.period,
        value := round4 r.1.value, population := r.2 : CombinedRow }
    some
      { target_series := targetSeries, target_period := targetPeriod,
        records := records, total_records := records.length }

/-- `run_analytics` (lines 86-132).  The loading-and-reporting step
inside the `try` is abstracted as an `Except` outcome: an exception
anywhere in it lands in the `except` branch (lines 126-132), which
returns the failure record; the success record (lines 116-124) carries
only the three indicator fields of `analytics_summary`, not the
reports. -/
def run_analytics
    (loaded : Except String (List BLSObservation × List PopulationObservation))
    (ts : String) : RunResult :=
  match loaded with
  | .error e => .failure e ts
  | .ok (bls, pop) =>
      .success ts
        { population_stats_calculated := (calculate_population_statistics 2013 2018 pop).isSome
          best_years_analyzed := (calculate_best_years bls).length
          combined_report_generated := (generate_combined_report bls pop).isSome }

/-- One raw BLS JSON data point (lines 170-176): each of the fields the
code reads with `.get(..., default)` may be absent.  `value = none`
covers both an absent and a falsy (empty) value field; a body whose
numeric text does not parse is subsumed in the store-level error. -/
structure RawDataPoint where
  year : Option Int
  period : Option String
  value : Option ℚ
  deriving DecidableEq

/-- Lines 171-175: a data point becomes a row with defaults `0`, `""`
and `0` for absent fields — absence never raises and never drops the
record. -/
def parseDataPoint (sid : String) (p : RawDataPoint) : BLSObservation :=
  { series_id := sid, year := p.year.getD 0, period := p.period.getD (""),
    value := p.value.getD 0 }

/-- Lines 166-176: one fetched object body.  `none` models a body
without the `data`/`Results` keys (the guard of line 167 then appends
nothing); `some l` holds the point list of each series entry. -/
def parseBLSBody (sid : String) (body : Option (List (List RawDataPoint))) :
    List BLSObservation :=
  match body with
  | none => []
  | some seriesData => seriesData.flatMap fun pts => pts.map (parseDataPoint sid)

/-- The object store as the loaders see it.  `listBLS` is the
`CommonPrefixes` listing of `bls-data/` reduced to the series ids;
`getObject` and `getPopObject` return a parsed body, `Except.error` for
any get/JSON failure, and `Option.none` for a parseable body missing
the expected top-level keys.  `listPop` is the `Contents` key listing
of `datausa-api/population/`, in the ascending key order S3 returns. -/
structure S3Store where
  listBLS : Except String (List String)
  getObject : String → Except String (Option (List (List RawDataPoint)))
  listPop : Except String (List String)
  getPopObject : String → Except String (Option (List PopulationObservation))

/-- The per-series loop of lines 154-184: fetch today's object of each
series, skip a series whose get or parse raises (lines 182-184), count
a successful fetch even when the key guard appends nothing, and stop
once 10 series were fetched (lines 178-180). -/
def blsLoop (store : S3Store) (today : String) :
    List String → Nat → List BLSObservation
  | [], _ => []
  | sid :: rest, cnt =>
      match store.getObject ("bls-data/" ++ sid ++ "/" ++ today ++ ".json") with
      | .error _ => blsLoop store today rest cnt
      | .ok body =>
          let recs := parseBLSBody sid body
          if 10 ≤ cnt + 1 then recs
          else recs ++ blsLoop store today rest (cnt + 1)

/-- The record list `load_bls_data` accumulates from a `CommonPrefixes`
listing. -/
def bls_records (store : S3Store) (today : String) (ids : List String) :
    List BLSObservation :=
  blsLoop store today ids 0

/-- `create_sample_bls_data` (lines 404-425): 5 fixed series ids. -/
def sampleSeriesList : List String :=
  ["PRS30006032", "PRS30006011", "PRS30006012", "LNS14000000", "CES0000000001"]

/-- `create_sample_bls_data`: years `range(2013, 2024)`. -/
def sampleYears : List Int :=
  [2013, 2014, 2015, 2016, 2017, 2018, 2019, 2020, 2021, 2022, 2023]

/-- `create_sample_bls_data`: the four quarter codes. -/
def sampleQuarters : List String := ["Q01", "Q02", "Q03", "Q04"]

/-- `create_sample_bls_data` (lines 404-425): the fixed grid of
series × year × quarter, each row taking the next
`np.random.uniform(1.0, 3.0)` draw — modelled by the oracle `rng`
applied to the draw index. -/
def create_sample_bls_data (rng : Nat → ℚ) : List BLSObservation :=
  ((sampleSeriesList.flatMap fun s =>
      sampleYears.flatMap fun y =>
        sampleQuarters.map fun q => (s, y, q)).enum).map
    fun iq => { series_id := iq.2.1, year := iq.2.2.1, period := iq.2.2.2,
                value := rng iq.1 }

/-- `create_sample_population_data` (lines 427-444): the fixed literal
dataset, years 2013-2023 without 2020. -/
def create_sample_population_data : List PopulationObservation :=
  [⟨2013, 316128839⟩, ⟨2014, 318857056⟩, ⟨2015, 321418821⟩, ⟨2016, 323127515⟩,
   ⟨2017, 325719178⟩, ⟨2018, 327167439⟩, ⟨2019, 328239523⟩, ⟨2021, 331893745⟩,
   ⟨2022, 333287562⟩, ⟨2023, 334914896⟩]

/-- `load_bls_data` (lines 134-198): a listing failure (the outer
`except`, lines 196-198) or an empty record set (lines 190-192) falls
back to the synthetic sample data; otherwise the accumulated records
are returned. -/
def load_bls_data (store : S3Store) (today : String) (rng : Nat → ℚ) :
    List BLSObservation :=
  match store.listBLS with
  | .error _ => create_sample_bls_data rng
  | .ok ids =>
      let records := bls_records store today ids
      if records.isEmpty then create_sample_bls_data rng else records

/-- Python `key.endswith('.json')` of line 216, spelled over the
character list (extensionally `String.endsWith`, which does not reduce
in the kernel). -/
def endsWithJson (k : String) : Bool :=
  (".json").data.isSuffixOf k.data

/-- Lines 214-218 of `load_population_data`: walk the listed keys and
take the first `.json` one, then stop — with S3 listing keys in
ascending lexicographic order this is the lexicographically smallest
(oldest dated) key, despite the `latest_file` name and the
`Find latest population data` comment in the source. -/
def selectPopulationKey (keys : List String) : Option String :=
  keys.find? endsWithJson

/-- `load_population_data` (lines 200-240): any of listing failure, no
`.json` key, a get/JSON failure (the `except`, lines 238-240) or a body
without the `data` key (line 224) falls back to the fixed sample
dataset; a parsed `data` list is returned as is, even when empty. -/
def load_population_data (store : S3Store) : List PopulationObservation :=
  match store.listPop with
  | .error _ => create_sample_population_data
  | .ok keys =>
      match selectPopulationKey keys with
      | none => create_sample_population_data
      | some key =>
          match store.getPopObject key with
          | .error _ => create_sample_population_data
          | .ok none => create_sample_population_data
          | .ok (some rows) => rows

/-- The three reports of one `run_analytics` pass (lines 93-109) as a
function of the store snapshot, the date and the random oracle. -/
def pipeline_reports (store : S3Store) (today : String) (rng : Nat → ℚ) :
    Option PopulationSummary × List BestYearEntry × Option CombinedReport :=
  let bls := load_bls_data store today rng
  let pop := load_population_data store
  (calculate_population_statistics 2013 2018 pop,
   calculate_best_years bls,
   generate_combined_report bls pop)

/-! ## Grouping and argmax lemmas -/

lemma mem_seriesIds {bls : List BLSObservation} {s : String} :
    s ∈ seriesIds bls ↔ ∃ o ∈ bls, o.series_id = s := by
  unfold seriesIds
  rw [(List.perm_insertionSort _ _).mem_iff, List.mem_dedup, List.mem_map]

lemma nodup_seriesIds (bls : List BLSObservation) : (seriesIds bls).Nodup :=
  (List.perm_insertionSort _ _).nodup_iff.mpr (List.nodup_dedup _)

lemma mem_yearsOf {bls : List BLSObservation} {s : String} {y : Int} :
    y ∈ yearsOf bls s ↔ ∃ o ∈ bls, o.series_id = s ∧ o.year = y := by
  unfold yearsOf
  rw [(List.perm_insertionSort _ _).mem_iff, List.mem_dedup, List.mem_map]
  constructor
  · rintro ⟨o, ho, rfl⟩
    rw [List.mem_filter] at ho
    exact ⟨o, ho.1, by simpa using ho.2, rfl⟩
  · rintro ⟨o, ho, hs, rfl⟩
    exact ⟨o, List.mem_filter.mpr ⟨ho, by simpa using hs⟩, rfl⟩

lemma sorted_yearsOf (bls : List BLSObservation) (s : String) :
    (yearsOf bls s).Sorted (· ≤ ·) :=
  List.sorted_insertionSort _ _

lemma yearsOf_ne_nil {bls : List BLSObservation} {s : String}
    (h : ∃ o ∈ bls, o.series_id = s) : yearsOf bls s ≠ [] := by
  obtain ⟨o, ho, hs⟩ := h
  have hmem : o.year ∈ yearsOf bls s := mem_yearsOf.mpr ⟨o, ho, hs, rfl⟩
  intro hnil
  rw [hnil] at hmem
  exact List.not_mem_nil _ hmem

/-- The fold of `bestOfYears`, named for the induction. -/
def bestFold (f : Int → ℚ) (b : Int × ℚ) (ys : List Int) : Int × ℚ :=
  ys.foldl (fun b y2 => if b.2 < f y2 then (y2, f y2) else b) b

lemma bestOfYears_cons (f : Int → ℚ) (y : Int) (ys : List Int) :
    bestOfYears f (y :: ys) = some (bestFold f (y, f y) ys) := rfl

/-- Invariant of the first-argmax fold: the result carries its own value,
comes from the seed or the list, never decreases, dominates the list,
equals the seed when the value never improved, and on a sorted input
sits at or before every tying element. -/
lemma bestFold_spec (f : Int → ℚ) :
    ∀ (ys : List Int) (b : Int × ℚ), b.2 = f b.1 →
      List.Sorted (· ≤ ·) ys → (∀ z ∈ ys, b.1 ≤ z) →
      (bestFold f b ys).2 = f (bestFold f b ys).1 ∧
      (bestFold f b ys = b ∨ (bestFold f b ys).1 ∈ ys) ∧
      b.2 ≤ (bestFold f b ys).2 ∧
      (∀ z ∈ ys, f z ≤ (bestFold f b ys).2) ∧
      (b.2 = (bestFold f b ys).2 → bestFold f b ys = b) ∧
      (∀ z, z = b.1 ∨ z ∈ ys → f z = (bestFold f b ys).2 → (bestFold f b ys).1 ≤ z)
  | [], b => by
      intro hb _ _
      refine ⟨hb, Or.inl rfl, le_refl _, by simp, fun _ => rfl, ?_⟩
      rintro z (rfl | hz) _
      · exact le_refl _
      · exact absurd hz (List.not_mem_nil z)
  | y :: ys, b => by
      intro hb hs hlb
      rw [List.sorted_cons] at hs
      obtain ⟨hy_le, hs2⟩ := hs
      have hstep : bestFold f b (y :: ys) =
          bestFold f (if b.2 < f y then (y, f y) else b) ys := rfl
      by_cases hc : b.2 < f y
      · rw [if_pos hc] at hstep
        obtain ⟨h1, h2, h3, h4, h5, h6⟩ :=
          bestFold_spec f ys (y, f y) rfl hs2 (fun z hz => hy_le z hz)
        rw [hstep]
        refine ⟨h1, ?_, ?_, ?_, ?_, ?_⟩
        · rcases h2 with h | h
          · exact Or.inr (by rw [h]; exact List.mem_cons_self _ _)
          · exact Or.inr (List.mem_cons_of_mem _ h)
        · exact le_of_lt (lt_of_lt_of_le hc h3)
        · intro z hz
          rcases List.mem_cons.mp hz with rfl | hz2
          · exact h3
          · exact h4 z hz2
        · intro heq
          exact absurd heq (ne_of_lt (lt_of_lt_of_le hc h3))
        · rintro z (rfl | hz) hfz
          · exact absurd (hb.trans hfz) (ne_of_lt (lt_of_lt_of_le hc h3))
          · rcases List.mem_cons.mp hz with rfl | hz2
            · exact h6 z (Or.inl rfl) hfz
            · exact h6 z (Or.inr hz2) hfz
      · rw [if_neg hc] at hstep
        have hfy : f y ≤ b.2 := le_of_not_lt hc
        obtain ⟨h1, h2, h3, h4, h5, h6⟩ :=
          bestFold_spec f ys b hb hs2 (fun z hz => hlb z (List.mem_cons_of_mem _ hz))
        rw [hstep]
        refine ⟨h1, ?_, h3, ?_, h5, ?_⟩
        · rcases h2 with h | h
          · exact Or.inl h
          · exact Or.inr (List.mem_cons_of_mem _ h)
        · intro z hz
          rcases List.mem_cons.mp hz with rfl | hz2
          · exact le_trans hfy h3
          · exact h4 z hz2
        · rintro z (rfl | hz) hfz
          · exact h6 _ (Or.inl rfl) hfz
          · rcases List.mem_cons.mp hz with rfl | hz2
            · have hge : (bestFold f b ys).2 ≤ b.2 := by
                rw [← hfz]; exact hfy
              have hr : bestFold f b ys = b := h5 (le_antisymm h3 hge)
              rw [hr]
              exact hlb _ (List.mem_cons_self _ _)
            · exact h6 z (Or.inr hz2) hfz

lemma bestOfYears_spec (f : Int → ℚ) (ys : List Int)
    (hs : ys.Sorted (· ≤ ·)) (hne : ys ≠ []) :
    ∃ m v, bestOfYears f ys = some (m, v) ∧ v = f m ∧ m ∈ ys ∧
      (∀ z ∈ ys, f z ≤ v) ∧ (∀ z ∈ ys, f z = v → m ≤ z) := by
  cases ys with
  | nil => exact absurd rfl hne
  | cons y t =>
      rw [List.sorted_cons] at hs
      obtain ⟨hy, ht⟩ := hs
      obtain ⟨h1, h2, h3, h4, h5, h6⟩ := bestFold_spec f t (y, f y) rfl ht hy
      refine ⟨(bestFold f (y, f y) t).1, (bestFold f (y, f y) t).2,
        by rw [bestOfYears_cons], h1, ?_, ?_, ?_⟩
      · rcases h2 with h | h
        · rw [h]; exact List.mem_cons_self _ _
        · exact List.mem_cons_of_mem _ h
      · intro z hz
        rcases List.mem_cons.mp hz with rfl | hz2
        · exact h3
        · exact h4 z hz2
      · intro z hz hfz
        rcases List.mem_cons.mp hz with rfl | hz2
        · exact h6 z (Or.inl rfl) hfz
        · exact h6 z (Or.inr hz2) hfz

lemma filterMap_map_eq_self {α β : Type} (g : α → Option β) (h : β → α) :
    ∀ l : List α, (∀ s ∈ l, ∃ e, g s = some e ∧ h e = s) →
      (l.filterMap g).map h = l
  | [], _ => rfl
  | s :: t, H => by
      obtain ⟨e, hg, hh⟩ := H s (List.mem_cons_self _ _)
      rw [List.filterMap_cons, hg, List.map_cons, hh,
        filterMap_map_eq_self g h t (fun x hx => H x (List.mem_cons_of_mem _ hx))]

lemma calculate_best_years_map_series (bls : List BLSObservation) :
    (calculate_best_years bls).map (·.series_id) = seriesIds bls := by
  unfold calculate_best_years
  by_cases hb : bls.isEmpty
  · rw [if_pos hb, List.isEmpty_iff.mp hb]
    rfl
  · rw [if_neg hb]
    apply filterMap_map_eq_self
    intro s hs
    obtain ⟨m, v, hbo, -, -, -, -⟩ :=
      bestOfYears_spec (seriesYearSum bls s) (yearsOf bls s)
        (sorted_yearsOf bls s) (yearsOf_ne_nil (mem_seriesIds.mp hs))
    exact ⟨_, by rw [hbo]; rfl, rfl⟩

/-! ## Left-join lemmas -/

lemma filter_year_length_le_one (pop : List PopulationObservation)
    (hnd : (pop.map (·.year)).Nodup) (y : Int) :
    (pop.filter (fun p => p.year == y)).length ≤ 1 := by
  induction pop with
  | nil => simp
  | cons p t ih =>
      rw [List.map_cons, List.nodup_cons] at hnd
      obtain ⟨hp, ht⟩ := hnd
      rw [List.filter_cons]
      by_cases hc : p.year = y
      · rw [if_pos (by simpa using hc)]
        have hnil : t.filter (fun p2 => p2.year == y) = [] := by
          rw [List.filter_eq_nil_iff]
          intro q hq hqy
          apply hp
          rw [List.mem_map]
          refine ⟨q, hq, ?_⟩
          rw [show q.year = y by simpa using hqy, hc]
        rw [hnil]
        simp
      · rw [if_neg (by simpa using hc)]
        exact ih ht

lemma mergeRows_cons (b : BLSObservation) (t : List BLSObservation)
    (pop : List PopulationObservation) :
    mergeRows (b :: t) pop =
      (if (pop.filter (fun p => p.year == b.year)).isEmpty
        then [(b, (none : Option Int))]
        else (pop.filter (fun p => p.year == b.year)).map fun p => (b, some p.population))
      ++ mergeRows t pop := by
  unfold mergeRows
  rw [List.flatMap_cons]

lemma mergeRows_length (bf : List BLSObservation) (pop : List PopulationObservation)
    (hnd : (pop.map (·.year)).Nodup) :
    (mergeRows bf pop).length = bf.length := by
  induction bf with
  | nil => rfl
  | cons b t ih =>
      rw [mergeRows_cons, List.length_append, ih]
      by_cases hc : (pop.filter (fun p => p.year == b.year)).isEmpty
      · rw [if_pos hc]
        simp [Nat.add_comm]
      · rw [if_neg hc]
        have h1 := filter_year_length_le_one pop hnd b.year
        have h2 : (pop.filter (fun p => p.year == b.year)).length ≠ 0 := by
          intro h0
          exact hc (by rw [List.isEmpty_iff, ← List.length_eq_zero]; exact h0)
        rw [List.length_map, List.length_cons]
        omega

lemma mem_mergeRows {bf : List BLSObservation} {pop : List PopulationObservation}
    {r : BLSObservation × Option Int} (h : r ∈ mergeRows bf pop) :
    r.1 ∈ bf ∧
      ((r.2 = none ∧ ∀ p ∈ pop, p.year ≠ r.1.year) ∨
        (∃ p ∈ pop, p.year = r.1.year ∧ r.2 = some p.population)) := by
  unfold mergeRows at h
  rw [List.mem_flatMap] at h
  obtain ⟨b, hb, hr⟩ := h
  dsimp only at hr
  by_cases hc : (pop.filter (fun p => p.year == b.year)).isEmpty
  · rw [if_pos hc, List.mem_singleton] at hr
    subst hr
    refine ⟨hb, Or.inl ⟨rfl, ?_⟩⟩
    intro p hp hpy
    have hnil : pop.filter (fun p2 => p2.year == b.year) = [] := List.isEmpty_iff.mp hc
    have hmem : p ∈ pop.filter (fun p2 => p2.year == b.year) :=
      List.mem_filter.mpr ⟨hp, by simpa using hpy⟩
    rw [hnil] at hmem
    exact List.not_mem_nil _ hmem
  · rw [if_neg hc, List.mem_map] at hr
    obtain ⟨p, hp, hpe⟩ := hr
    rw [List.mem_filter] at hp
    subst hpe
    exact ⟨hb, Or.inr ⟨p, hp.1, by simpa using hp.2, rfl⟩⟩

/-! ## Nearest-integer square root -/

lemma roundSqrtQ_nonneg (q : ℚ) : 0 ≤ roundSqrtQ q := by
  unfold roundSqrtQ
  exact_mod_cast Nat.zero_le _

lemma roundSqrtQ_nearest (q : ℚ) (hq : 0 ≤ q) :
    |(roundSqrtQ q : ℝ) - Real.sqrt ((q : ℝ))| ≤ 1 / 2 := by
  have h4q : (0 : ℚ) ≤ 4 * q := by linarith
  have hM0 : 0 ≤ ⌊4 * q⌋ := Int.floor_nonneg.mpr h4q
  set m : ℕ := (⌊4 * q⌋).toNat with hm
  have hle : (m : ℚ) ≤ 4 * q := by
    rw [hm]
    calc ((⌊4 * q⌋.toNat : ℤ) : ℚ) = ((⌊4 * q⌋ : ℤ) : ℚ) := by
          rw [Int.toNat_of_nonneg hM0]
      _ ≤ 4 * q := Int.floor_le _
  have hlt : 4 * q < (m : ℚ) + 1 := by
    rw [hm]
    calc 4 * q < ((⌊4 * q⌋ : ℤ) : ℚ) + 1 := Int.lt_floor_add_one _
      _ = ((⌊4 * q⌋.toNat : ℤ) : ℚ) + 1 := by rw [Int.toNat_of_nonneg hM0]
  set s : ℕ := Nat.sqrt m with hs
  have hs1 : s * s ≤ m := Nat.sqrt_le m
  have hs2 : m < (s + 1) * (s + 1) := Nat.lt_succ_sqrt m
  set k : ℕ := (s + 1) / 2 with hk
  have hk1 : 2 * k ≤ s + 1 := by omega
  have hk2 : s ≤ 2 * k := by omega
  have hrq : roundSqrtQ q = (k : Int) := by
    rw [hk, hs, hm]
    rfl
  rw [hrq]
  have hq0R : (0 : ℝ) ≤ (q : ℝ) := by exact_mod_cast hq
  have hub : Real.sqrt ((q : ℝ)) < (k : ℝ) + 1 / 2 := by
    have h1 : (4 : ℚ) * q < (((2 * k + 1) * (2 * k + 1) : ℕ) : ℚ) := by
      have hA : m + 1 ≤ (s + 1) * (s + 1) := hs2
      have hB : (s + 1) * (s + 1) ≤ (2 * k + 1) * (2 * k + 1) :=
        Nat.mul_le_mul (by omega) (by omega)
      calc 4 * q < (m : ℚ) + 1 := hlt
        _ = (((m + 1 : ℕ)) : ℚ) := by push_cast; ring
        _ ≤ (((2 * k + 1) * (2 * k + 1) : ℕ) : ℚ) := by exact_mod_cast le_trans hA hB
    have h2 : (q : ℝ) < ((k : ℝ) + 1 / 2) ^ 2 := by
      have h1R : (4 : ℝ) * (q : ℝ) < ((2 * (k : ℝ) + 1)) * ((2 * (k : ℝ) + 1)) := by
        exact_mod_cast h1
      nlinarith [h1R]
    rw [Real.sqrt_lt' (by positivity)]
    exact h2
  have hlb : (k : ℝ) - 1 / 2 ≤ Real.sqrt ((q : ℝ)) := by
    rcases Nat.eq_zero_or_pos k with hk0 | hkpos
    · rw [hk0]
      have := Real.sqrt_nonneg ((q : ℝ))
      push_cast
      linarith
    · have h2k : 1 ≤ 2 * k := by omega
      have h1 : (((2 * k - 1) * (2 * k - 1) : ℕ) : ℚ) ≤ 4 * q := by
        have hA : (2 * k - 1) * (2 * k - 1) ≤ s * s :=
          Nat.mul_le_mul (by omega) (by omega)
        calc (((2 * k - 1) * (2 * k - 1) : ℕ) : ℚ) ≤ ((s * s : ℕ) : ℚ) := by
              exact_mod_cast hA
          _ ≤ (m : ℚ) := by exact_mod_cast hs1
          _ ≤ 4 * q := hle
      have h2 : ((k : ℝ) - 1 / 2) ^ 2 ≤ (q : ℝ) := by
        have h1R : ((2 * (k : ℝ) - 1)) * ((2 * (k : ℝ) - 1)) ≤ 4 * (q : ℝ) := by
          have h1c := h1
          push_cast [Nat.cast_sub h2k] at h1c
          exact_mod_cast h1c
        nlinarith [h1R]
      have hk1R : (1 : ℝ) ≤ (k : ℝ) := by exact_mod_cast hkpos
      rw [Real.le_sqrt (by linarith) hq0R]
      exact h2
  push_cast
  rw [abs_le]
  constructor
  · linarith
  · linarith

/-! ## Claim theorems -/

/-- C2: `calculate_best_years` returns exactly one entry per distinct
`series_id` of the input; each entry carries that series' yearly sum at
the chosen year, rounded to 4 decimals, the chosen year really occurs
for the series, and its yearly sum is maximal among the years of that
series; the empty collection gives the empty list. -/
theorem c2_best_years_per_series (bls : List BLSObservation) :
    (bls = [] → calculate_best_years bls = [])
    ∧ ((calculate_best_years bls).map (·.series_id)).Nodup
    ∧ (∀ s : String, s ∈ (calculate_best_years bls).map (·.series_id) ↔
        s ∈ bls.map (·.series_id))
    ∧ (∀ e ∈ calculate_best_years bls,
        e.max_value = round4 (seriesYearSum bls e.series_id e.best_year)
        ∧ (∃ o ∈ bls, o.series_id = e.series_id ∧ o.year = e.best_year)
        ∧ (∀ y : Int, (∃ o ∈ bls, o.series_id = e.series_id ∧ o.year = y) →
            seriesYearSum bls e.series_id y ≤
              seriesYearSum bls e.series_id e.best_year)) := by
  refine ⟨?_, ?_, ?_, ?_⟩
  · intro h
    subst h
    rfl
  · rw [calculate_best_years_map_series]
    exact nodup_seriesIds bls
  · intro s
    rw [calculate_best_years_map_series, mem_seriesIds, List.mem_map]
  · intro e he
    unfold calculate_best_years at he
    by_cases hb : bls.isEmpty
    · rw [if_pos hb] at he
      exact absurd he (List.not_mem_nil e)
    · rw [if_neg hb] at he
      rw [List.mem_filterMap] at he
      obtain ⟨s, hsmem, hg⟩ := he
      obtain ⟨m, v, hbo, hvm, hmem, hmax, -⟩ :=
        bestOfYears_spec (seriesYearSum bls s) (yearsOf bls s)
          (sorted_yearsOf bls s) (yearsOf_ne_nil (mem_seriesIds.mp hsmem))
      rw [hbo] at hg
      have hge : (⟨s, m, round4 v⟩ : BestYearEntry) = e := by simpa using hg
      subst hge
      refine ⟨by rw [hvm], mem_yearsOf.mp hmem, ?_⟩
      intro y hy
      rw [← hvm]
      exact hmax y (mem_yearsOf.mpr hy)

/-- C4: the chosen best year of each entry is the smallest among the
years of its series whose summed value ties the chosen year's sum, and
the computation is a pure function of its input (repeated runs agree). -/
theorem c4_tie_break_smallest_year (bls : List BLSObservation) :
    calculate_best_years bls = calculate_best_years bls
    ∧ ∀ e ∈ calculate_best_years bls, ∀ y : Int,
        (∃ o ∈ bls, o.series_id = e.series_id ∧ o.year = y) →
        seriesYearSum bls e.series_id y = seriesYearSum bls e.series_id e.best_year →
        e.best_year ≤ y := by
  refine ⟨rfl, ?_⟩
  intro e he y hy htie
  unfold calculate_best_years at he
  by_cases hb : bls.isEmpty
  · rw [if_pos hb] at he
    exact absurd he (List.not_mem_nil e)
  · rw [if_neg hb] at he
    rw [List.mem_filterMap] at he
    obtain ⟨s, hsmem, hg⟩ := he
    obtain ⟨m, v, hbo, hvm, hmem, hmax, hties⟩ :=
      bestOfYears_spec (seriesYearSum bls s) (yearsOf bls s)
        (sorted_yearsOf bls s) (yearsOf_ne_nil (mem_seriesIds.mp hsmem))
    rw [hbo] at hg
    have hge : (⟨s, m, round4 v⟩ : BestYearEntry) = e := by simpa using hg
    subst hge
    exact hties y (mem_yearsOf.mpr hy) (by rw [htie, hvm])

/-- C3 (amended): under the data-model invariant of one population
observation per year, the combined report is absent exactly when no
observation matches the selector; otherwise its rows are sorted
ascending by year, number exactly the matching observations, and each
row carries a matching observation's fields with the value rounded to 4
decimals and the population left-joined by year (null when the year is
absent from the population collection). -/
theorem c3_combined_report (bls : List BLSObservation) (pop : List PopulationObservation)
    (hnd : (pop.map (·.year)).Nodup) :
    (generate_combined_report bls pop = none ↔ bls.filter matchesTarget = [])
    ∧ ∀ rep, generate_combined_report bls pop = some rep →
        rep.target_series = targetSeries ∧ rep.target_period = targetPeriod
        ∧ rep.total_records = rep.records.length
        ∧ rep.records.length = (bls.filter matchesTarget).length
        ∧ rep.records.Sorted (fun a b => a.year ≤ b.year)
        ∧ ∀ r ∈ rep.records,
            (∃ b ∈ bls, matchesTarget b = true ∧ b.series_id = r.series_id
              ∧ b.year = r.year ∧ b.period = r.period ∧ r.value = round4 b.value)
            ∧ ((r.population = none ∧ ∀ p ∈ pop, p.year ≠ r.year)
              ∨ (∃ p ∈ pop, p.year = r.year ∧ r.population = some p.population)) := by
  constructor
  · by_cases hc : (bls.filter matchesTarget).isEmpty
    · have h1 : generate_combined_report bls pop = none := by
        simp only [generate_combined_report]
        rw [if_pos hc]
      rw [h1]
      simp [List.isEmpty_iff.mp hc]
    · have h1 : generate_combined_report bls pop ≠ none := by
        simp only [generate_combined_report]
        rw [if_neg hc]
        simp
      constructor
      · intro h
        exact absurd h h1
      · intro h
        exact absurd (List.isEmpty_iff.mpr h) hc
  · intro rep hrep
    by_cases hc : (bls.filter matchesTarget).isEmpty
    · simp only [generate_combined_report] at hrep
      rw [if_pos hc] at hrep
      exact absurd hrep (by simp)
    · simp only [generate_combined_report] at hrep
      rw [if_neg hc] at hrep
      have hrec := Option.some.inj hrep
      subst hrec
      refine ⟨rfl, rfl, rfl, ?_, ?_, ?_⟩
      · rw [List.length_map, (List.perm_insertionSort _ _).length_eq]
        exact mergeRows_length _ _ hnd
      · have hs := List.sorted_insertionSort (fun a b => a.1.year ≤ b.1.year)
          (mergeRows (bls.filter matchesTarget) pop)
        exact List.pairwise_map.mpr (hs.imp (fun h => h))
      · intro r hr
        rw [List.mem_map] at hr
        obtain ⟨mr, hmr, hfr⟩ := hr
        have hmr2 : mr ∈ mergeRows (bls.filter matchesTarget) pop :=
          (List.perm_insertionSort _ _).subset hmr
        obtain ⟨hb, hp⟩ := mem_mergeRows hmr2
        rw [List.mem_filter] at hb
        subst hfr
        exact ⟨⟨mr.1, hb.1, hb.2, rfl, rfl, rfl, rfl⟩, hp⟩

/-- C3 counterexample: with two population observations for the same
year, the left join duplicates the matching BLS row — the report has 2
rows though exactly 1 observation matches the selector, contradicting
the claimed row count for arbitrary population collections. -/
theorem c3_counterexample :
    ((generate_combined_report
        [{ series_id := targetSeries, year := 2020, period := targetPeriod, value := 5 }]
        [⟨2020, 1⟩, ⟨2020, 2⟩]).map (·.total_records) = some 2)
    ∧ ([(⟨targetSeries, 2020, targetPeriod, 5⟩ : BLSObservation)].filter
        matchesTarget).length = 1 := by
  exact ⟨rfl, rfl⟩

/-- C3 witness: the amended theorem applied to a one-observation
collection with a duplicate-free population collection. -/
theorem c3_witness :
    generate_combined_report
        [{ series_id := targetSeries, year := 2020, period := targetPeriod, value := 5 }]
        [⟨2021, 7⟩] = none
      ↔ ([(⟨targetSeries, 2020, targetPeriod, 5⟩ : BLSObservation)].filter
          matchesTarget) = [] :=
  (c3_combined_report
    [{ series_id := targetSeries, year := 2020, period := targetPeriod, value := 5 }]
    [⟨2021, 7⟩] (by decide)).1

/-- The in-range subset of a population collection (the filter of line
250). -/
def inRangeObs (lo hi : Int) (pop : List PopulationObservation) :
    List PopulationObservation :=
  pop.filter (fun o => inYearRange lo hi o.year)

/-- Spec-side closed form: the arithmetic mean of the population values
of a collection. -/
def popMean (l : List PopulationObservation) : ℚ :=
  (l.map (fun o => (o.population : ℚ))).sum / l.length

/-- Spec-side closed form: the sample variance (denominator N-1) of the
population values of a collection. -/
def popSampleVar (l : List PopulationObservation) : ℚ :=
  ((l.map (fun o => (o.population : ℚ))).map (fun v => (v - popMean l) ^ 2)).sum /
    (l.length - 1)

lemma inYearRange_iff {lo hi y : Int} : inYearRange lo hi y = true ↔ lo ≤ y ∧ y ≤ hi := by
  simp [inYearRange]

/-- C1 (amended): the population summary is absent exactly when no
observation's year lies in the inclusive range; otherwise its mean is
the arithmetic mean of the in-range population values rounded to the
nearest whole unit, its standard deviation is — whenever at least two
observations are in range — the sample standard deviation (denominator
N-1) rounded to the nearest whole unit, and absent (`NaN`) for a single
in-range observation, its year list is the ascending sort, with
multiplicity, of the in-range observations' years, and its count is the
number of in-range observations. -/
theorem c1_population_statistics (lo hi : Int) (pop : List PopulationObservation) :
    (calculate_population_statistics lo hi pop = none ↔
      ∀ o ∈ pop, ¬ (lo ≤ o.year ∧ o.year ≤ hi))
    ∧ ∀ s, calculate_population_statistics lo hi pop = some s →
        inRangeObs lo hi pop ≠ []
        ∧ s.mean_population = round (popMean (inRangeObs lo hi pop))
        ∧ |(s.mean_population : ℚ) - popMean (inRangeObs lo hi pop)| ≤ 1 / 2
        ∧ (2 ≤ (inRangeObs lo hi pop).length →
            ∃ k : Int, s.std_deviation = some k ∧
              |(k : ℝ) - Real.sqrt ((popSampleVar (inRangeObs lo hi pop) : ℚ) : ℝ)| ≤ 1 / 2)
        ∧ ((inRangeObs lo hi pop).length = 1 → s.std_deviation = none)
        ∧ s.years_included.Perm ((inRangeObs lo hi pop).map (·.year))
        ∧ s.years_included.Sorted (· ≤ ·)
        ∧ s.data_points = (inRangeObs lo hi pop).length := by
  constructor
  · simp only [calculate_population_statistics]
    by_cases hc : (pop.filter (fun o => inYearRange lo hi o.year)).length = 0
    · rw [if_pos hc]
      have hnil : pop.filter (fun o => inYearRange lo hi o.year) = [] :=
        List.length_eq_zero.mp hc
      rw [List.filter_eq_nil_iff] at hnil
      constructor
      · intro _ o ho hrange
        exact hnil o ho (inYearRange_iff.mpr hrange)
      · intro _
        rfl
    · rw [if_neg hc]
      constructor
      · intro h
        exact absurd h (by simp)
      · intro hall
        apply absurd _ hc
        rw [List.length_eq_zero, List.filter_eq_nil_iff]
        intro o ho hr
        exact hall o ho (inYearRange_iff.mp hr)
  · intro s hs
    simp only [calculate_population_statistics] at hs
    by_cases hc : (pop.filter (fun o => inYearRange lo hi o.year)).length = 0
    · rw [if_pos hc] at hs
      exact absurd hs (by simp)
    · rw [if_neg hc] at hs
      have hrec := Option.some.inj hs
      subst hrec
      refine ⟨?_, rfl, ?_, ?_, ?_, ?_, ?_, rfl⟩
      · intro hnil
        exact hc (by rw [inRangeObs] at hnil; rw [hnil]; rfl)
      · rw [abs_sub_comm]
        exact abs_sub_round _
      · intro h2
        rw [inRangeObs] at h2
        refine ⟨roundSqrtQ (popSampleVar (inRangeObs lo hi pop)), ?_, ?_⟩
        · show (if 2 ≤ (pop.filter (fun o => inYearRange lo hi o.year)).length
              then some (popSampleVar (inRangeObs lo hi pop)) else none).map roundSqrtQ
            = some (roundSqrtQ (popSampleVar (inRangeObs lo hi pop)))
          rw [if_pos h2]
          rfl
        · apply roundSqrtQ_nearest
          unfold popSampleVar
          apply div_nonneg
          · apply List.sum_nonneg
            intro x hx
            rw [List.mem_map] at hx
            obtain ⟨v, -, rfl⟩ := hx
            positivity
          · have h2Q : (2 : ℚ) ≤ ((inRangeObs lo hi pop).length : ℚ) := by
              exact_mod_cast h2
            linarith
      · intro h1
        rw [inRangeObs] at h1
        show (if 2 ≤ (pop.filter (fun o => inYearRange lo hi o.year)).length
            then some (popSampleVar (inRangeObs lo hi pop)) else none).map roundSqrtQ = none
        rw [if_neg (by omega)]
        rfl
      · exact List.perm_insertionSort _ _
      · exact List.sorted_insertionSort _ _

/-- C1 counterexample: the year list is not deduplicated — two in-range
observations sharing a year are listed twice — and with exactly one
in-range observation the summary is produced with an undefined (`NaN`,
here absent) standard deviation rather than a number. -/
theorem c1_counterexample :
    ((calculate_population_statistics 2013 2018 [⟨2015, 100⟩, ⟨2015, 200⟩]).map
        (·.years_included) = some [2015, 2015])
    ∧ ¬ ([2015, 2015] : List Int).Nodup
    ∧ ((calculate_population_statistics 2013 2018 [⟨2015, 100⟩]).map
        (·.std_deviation) = some none) := by
  exact ⟨rfl, by decide, rfl⟩

/-- C10: with exactly one in-range observation the guard of line 252
does not fire: a summary is produced whose mean is that observation's
population value, whose year list is that observation's year, and whose
standard deviation is the `NaN` of a zero `N - 1` denominator, modelled
as absent. -/
theorem c10_single_point_statistics (lo hi : Int) (pop : List PopulationObservation)
    (h : (pop.filter (fun o => inYearRange lo hi o.year)).length = 1) :
    ∃ o, pop.filter (fun o => inYearRange lo hi o.year) = [o] ∧
      calculate_population_statistics lo hi pop =
        some { mean_population := o.population, std_deviation := none,
               years_included := [o.year], data_points := 1 } := by
  obtain ⟨o, ho⟩ := List.length_eq_one.mp h
  refine ⟨o, ho, ?_⟩
  simp only [calculate_population_statistics]
  rw [ho]
  rw [if_neg (by simp)]
  congr 1
  have hmean : ((([o].map (fun o => (o.population : ℚ))).sum) / (([o].length : ℕ) : ℚ))
      = (o.population : ℚ) := by
    simp
  refine PopulationSummary.mk.injEq _ _ _ _ _ _ _ _ ▸ ?_
  refine ⟨?_, ?_, ?_, rfl⟩
  · rw [hmean, round_intCast]
  · rw [if_neg (by simp)]
    rfl
  · rfl

/-- C10 witness: the theorem evaluated on the one-observation
collection `[(2015, 100)]` over the range 2013-2018. -/
theorem c10_witness :
    ∃ o, ([⟨2015, 100⟩] : List PopulationObservation).filter
        (fun o => inYearRange 2013 2018 o.year) = [o] ∧
      calculate_population_statistics 2013 2018 [⟨2015, 100⟩] =
        some { mean_population := o.population, std_deviation := none,
               years_included := [o.year], data_points := 1 } :=
  c10_single_point_statistics 2013 2018 [⟨2015, 100⟩] (by rfl)

/-- C5 (amended): every modelled failure of either loader — listing
error, no usable records, no `.json` key, get/parse error, missing
`data` key — yields the built-in fallback dataset rather than an
exception; a successful load returns the accumulated records.  The
population fallback is the fixed literal 2013-2023 dataset; the BLS
fallback has a fixed series/year/quarter grid independent of the random
draws, but its values come from the random oracle. -/
theorem c5_loader_fallback (store : S3Store) (today : String) (rng : Nat → ℚ) :
    (∀ e, store.listBLS = .error e →
      load_bls_data store today rng = create_sample_bls_data rng)
    ∧ (∀ ids, store.listBLS = .ok ids → bls_records store today ids = [] →
        load_bls_data store today rng = create_sample_bls_data rng)
    ∧ (∀ ids, store.listBLS = .ok ids → bls_records store today ids ≠ [] →
        load_bls_data store today rng = bls_records store today ids)
    ∧ (∀ e, store.listPop = .error e →
        load_population_data store = create_sample_population_data)
    ∧ (∀ keys, store.listPop = .ok keys → selectPopulationKey keys = none →
        load_population_data store = create_sample_population_data)
    ∧ (∀ keys key e, store.listPop = .ok keys → selectPopulationKey keys = some key →
        store.getPopObject key = .error e →
        load_population_data store = create_sample_population_data)
    ∧ (∀ keys key, store.listPop = .ok keys → selectPopulationKey keys = some key →
        store.getPopObject key = .ok none →
        load_population_data store = create_sample_population_data)
    ∧ (create_sample_population_data.map (·.year) =
        [2013, 2014, 2015, 2016, 2017, 2018, 2019, 2021, 2022, 2023])
    ∧ ((create_sample_bls_data rng).map (fun o => (o.series_id, o.year, o.period)) =
        (create_sample_bls_data (fun _ => 0)).map
          (fun o => (o.series_id, o.year, o.period))) := by
  refine ⟨?_, ?_, ?_, ?_, ?_, ?_, ?_, rfl, ?_⟩
  · intro e he
    unfold load_bls_data
    rw [he]
  · intro ids hok hnil
    unfold load_bls_data
    rw [hok]
    dsimp only
    rw [if_pos (List.isEmpty_iff.mpr hnil)]
  · intro ids hok hne
    unfold load_bls_data
    rw [hok]
    dsimp only
    rw [if_neg (fun hemp => hne (List.isEmpty_iff.mp hemp))]
  · intro e he
    unfold load_population_data
    rw [he]
  · intro keys hok hsel
    unfold load_population_data
    rw [hok]
    dsimp only
    rw [hsel]
  · intro keys key e hok hsel hget
    unfold load_population_data
    rw [hok]
    dsimp only
    rw [hsel]
    dsimp only
    rw [hget]
  · intro keys key hok hsel hget
    unfold load_population_data
    rw [hok]
    dsimp only
    rw [hsel]
    dsimp only
    rw [hget]
  · unfold create_sample_bls_data
    rw [List.map_map, List.map_map]
    exact List.map_congr_left (fun x _ => rfl)

/-- The store of the failure-path counterexamples: every call fails. -/
def downStore : S3Store :=
  { listBLS := .error ("down"), getObject := fun _ => .error ("down"),
    listPop := .error ("down"), getPopObject := fun _ => .error ("down") }

/-- C5 counterexample: the fallback BLS dataset is not deterministic —
on the same unreachable store, two runs whose random draws differ load
different datasets (the first sample row carries the first draw). -/
theorem c5_counterexample :
    load_bls_data downStore ("2025-01-01") (fun _ => 1)
      ≠ load_bls_data downStore ("2025-01-01") (fun _ => 2) := by
  intro h
  have e1 : (load_bls_data downStore ("2025-01-01") (fun _ => (1 : ℚ))).head?.map
      (·.value) = some 1 := rfl
  have e2 : (load_bls_data downStore ("2025-01-01") (fun _ => (2 : ℚ))).head?.map
      (·.value) = some 2 := rfl
  rw [h, e2] at e1
  have h12 := Option.some.inj e1
  norm_num at h12

/-- C6 (amended): the run result is a record with a timestamp; the
exception branch carries the captured error message and no report data,
and the success branch carries, instead of the three reports, only the
summary derived from them: whether population statistics were computed,
how many best-year entries there are, and whether the combined report
was generated. -/
theorem c6_run_result_structure
    (loaded : Except String (List BLSObservation × List PopulationObservation))
    (ts : String) :
    (∀ e, loaded = .error e → run_analytics loaded ts = .failure e ts)
    ∧ (∀ bls pop, loaded = .ok (bls, pop) →
        run_analytics loaded ts = .success ts
          { population_stats_calculated :=
              (calculate_population_statistics 2013 2018 pop).isSome
            best_years_analyzed := (calculate_best_years bls).length
            combined_report_generated := (generate_combined_report bls pop).isSome }) := by
  constructor
  · rintro e rfl
    rfl
  · rintro bls pop rfl
    rfl

/-- C6 counterexample: two loaded datasets whose best-year reports
differ produce identical run results — the success record cannot carry
the three reports, only counts and flags derived from them. -/
theorem c6_counterexample :
    run_analytics (.ok ([⟨"A", 2020, "Q01", 1⟩], [])) ("t")
      = run_analytics (.ok ([⟨"A", 2021, "Q01", 1⟩], [])) ("t")
    ∧ calculate_best_years [⟨"A", 2020, "Q01", 1⟩]
      ≠ calculate_best_years [⟨"A", 2021, "Q01", 1⟩] := by
  refine ⟨rfl, ?_⟩
  intro h
  have h2 := congrArg (fun l => l.head?.map (·.best_year)) h
  exact absurd h2 (by decide)

/-- C7 (amended): a data point missing any of the `year`, `period` or
`value` fields is not dropped: it is retained as an observation with
the defaults year 0, empty period and value 0, and parsing is total —
every listed point yields exactly one observation. -/
theorem c7_malformed_records_kept (sid : String)
    (seriesData : List (List RawDataPoint)) :
    parseBLSBody sid none = []
    ∧ (parseBLSBody sid (some seriesData)).length =
        (seriesData.map List.length).sum
    ∧ ∀ pts ∈ seriesData, ∀ p ∈ pts,
        (⟨sid, p.year.getD 0, p.period.getD (""), p.value.getD 0⟩ : BLSObservation)
          ∈ parseBLSBody sid (some seriesData) := by
  refine ⟨rfl, ?_, ?_⟩
  · unfold parseBLSBody
    rw [List.length_flatMap]
    congr 1
    simp [Function.comp_def]
  · intro pts hpts p hp
    unfold parseBLSBody
    rw [List.mem_flatMap]
    exact ⟨pts, hpts, List.mem_map.mpr ⟨p, hp, rfl⟩⟩

/-- C7 counterexample: a record with all required fields missing still
appears in the loaded collection (with defaulted fields) — it is not
dropped, so the loaded collection is not empty. -/
theorem c7_counterexample :
    parseBLSBody ("S1") (some [[{ year := none, period := none, value := none }]])
      = [{ series_id := "S1", year := 0, period := "", value := 0 }]
    ∧ ([({ series_id := "S1", year := 0, period := "", value := 0 } : BLSObservation)])
      ≠ [] := by
  exact ⟨rfl, by simp⟩

/-- C8: on an S3 listing in ascending key order, the loader keeps the
first `.json` key and stops — the oldest dated snapshot, not the
latest: here the 2025-09-30 object is chosen over the 2025-10-01
one. -/
theorem c8_oldest_key_selected :
    selectPopulationKey
        ["datausa-api/population/2025-09-30/datausa_population_20250930.json",
         "datausa-api/population/2025-10-01/datausa_population_20251001.json"]
      = some ("datausa-api/population/2025-09-30/datausa_population_20250930.json")
    ∧ ("datausa-api/population/2025-09-30/datausa_population_20250930.json" : String)
      < "datausa-api/population/2025-10-01/datausa_population_20251001.json" := by
  constructor
  · rfl
  · rw [String.lt_iff_toList_lt]
    decide

/-- C9 (amended): the three reports are a pure function of the loaded
datasets, and whenever the BLS loader does not take its fallback path
(the listing succeeds and yields records), the whole pipeline over one
store snapshot is independent of the random oracle; the counterexample
shows the fallback path itself is not. -/
theorem c9_pipeline_deterministic (store : S3Store) (today : String)
    (r1 r2 : Nat → ℚ) (ids : List String)
    (hok : store.listBLS = .ok ids)
    (hne : bls_records store today ids ≠ []) :
    pipeline_reports store today r1 = pipeline_reports store today r2 := by
  have hload : ∀ rng, load_bls_data store today rng = bls_records store today ids := by
    intro rng
    unfold load_bls_data
    rw [hok]
    dsimp only
    rw [if_neg (fun hemp => hne (List.isEmpty_iff.mp hemp))]
  unfold pipeline_reports
  rw [hload r1, hload r2]

/-- A store whose BLS listing and single object read succeed. -/
def okStoreOneSeries : S3Store :=
  { listBLS := .ok ["SER1"],
    getObject := fun k =>
      if k = "bls-data/SER1/2025-06-01.json"
        then .ok (some [[{ year := some 2020, period := some ("Q01"), value := some 2 }]])
        else .error ("missing"),
    listPop := .error ("down"),
    getPopObject := fun _ => .error ("down") }

/-- C9 witness: on a store whose BLS load succeeds, two runs with
different random oracles produce identical reports. -/
theorem c9_witness :
    pipeline_reports okStoreOneSeries ("2025-06-01") (fun _ => 1)
      = pipeline_reports okStoreOneSeries ("2025-06-01") (fun _ => 2) :=
  c9_pipeline_deterministic okStoreOneSeries ("2025-06-01") (fun _ => 1) (fun _ => 2)
    ["SER1"] rfl (by decide)

/-- C9 counterexample: over the identical unreachable store snapshot,
two runs differing only in their random draws yield different combined
reports — the fallback path breaks snapshot-level determinism. -/
theorem c9_counterexample :
    pipeline_reports downStore ("2025-01-01") (fun _ => 1)
      ≠ pipeline_reports downStore ("2025-01-01") (fun _ => 2) := by
  intro h
  have e1 : ((pipeline_reports downStore ("2025-01-01") (fun _ => (1 : ℚ))).2.2.map
      (fun rep => rep.records.head?.map (·.value))) = some (some (round4 1)) := rfl
  have e2 : ((pipeline_reports downStore ("2025-01-01") (fun _ => (2 : ℚ))).2.2.map
      (fun rep => rep.records.head?.map (·.value))) = some (some (round4 2)) := rfl
  rw [h, e2] at e1
  have h12 : round4 2 = round4 1 := Option.some.inj (Option.some.inj e1)
  rw [round4, round4, round_eq, round_eq] at h12
  norm_num at h12
